import Mathlib

/-!
Verification of the watchlist-data recommender core
(`src/recommender/trainer.py` and `src/recommender/similarity.py`),
as a shallow embedding in Lean 4.

Python exceptions are modelled with `Except PyErr`; pandas frames are lists
of rows; numpy arrays of embeddings are lists of integer vectors (only the
ordering and identity of vectors matter for the stated claims, so the float
scalar type is replaced by `Int`); the external sentence-transformers
encoder is an explicit function parameter.
-/

namespace Watchlist

/-- Kinds of Python exceptions raised on the modelled code paths:
`ValueError` (from `literal_eval` on a malformed literal, and from
`SimilarityMeasure.load` on a missing folder), `TypeError` (unhashable
dict key / subscripting `None`), `KeyError` (missing dict key),
`AttributeError` (method call on `None`), and pandas'
`IntCastingNaNError` (from `.astype(int)` on a column containing NaN). -/
inductive PyErr where
  | valueError
  | typeError
  | keyError
  | attributeError
  | intCastingNaN
deriving Repr, DecidableEq

instance {ε α : Type} [DecidableEq ε] [DecidableEq α] : DecidableEq (Except ε α) := fun a b =>
  match a, b with
  | .error e, .error e' =>
      if h : e = e' then .isTrue (by rw [h]) else .isFalse (fun hh => h (Except.error.inj hh))
  | .ok v, .ok v' =>
      if h : v = v' then .isTrue (by rw [h]) else .isFalse (fun hh => h (Except.ok.inj hh))
  | .error _, .ok _ => .isFalse (fun hh => Except.noConfusion hh)
  | .ok _, .error _ => .isFalse (fun hh => Except.noConfusion hh)

/-- One row of the `train_data` frame after cleaning
(`trainer.py` lines 78-80): an integer `movie_id` and a text blob. -/
structure Item where
  movie_id : Int
  text : String
deriving Repr, DecidableEq

/-- Decimal digit value of a character, `none` for a non-digit. -/
def charDigit? (c : Char) : Option Nat :=
  if 48 ≤ c.toNat ∧ c.toNat ≤ 57 then some (c.toNat - 48) else none

/-- Left-to-right accumulation of a digit string's value; `none` as soon as
a non-digit appears. -/
def parseDigitsAux : List Char → Nat → Option Nat
  | [], acc => some acc
  | c :: cs, acc =>
    match charDigit? c with
    | some d => parseDigitsAux cs (acc * 10 + d)
    | none => none

/-- Models `pd.to_numeric(col, errors="coerce")` on one cell holding an
integer-form string: an optional sign followed by digits becomes that
integer, anything else becomes NaN (`none`). -/
def pdToNumeric (s : String) : Option Int :=
  match s.data with
  | [] => none
  | c :: cs =>
    if c = '-' then
      match cs with
      | [] => none
      | _ => (parseDigitsAux cs 0).map (fun n => -(n : Int))
    else
      (parseDigitsAux (c :: cs) 0).map (fun n => (n : Int))

/-- Models `series.isin(vals)` from pandas: one Bool per element. -/
def pdIsin (s : List Int) (vals : List Int) : List Bool :=
  s.map (fun x => vals.contains x)

/-- Boolean-mask row selection `df[mask]` from pandas: keep the rows whose
mask entry is `true`, in order. -/
def maskRows {α : Type} (rows : List α) (mask : List Bool) : List α :=
  ((rows.zip mask).filter (fun p => p.2)).map Prod.fst

/-- The supplemental-merge step of `Trainer.load_data`
(`trainer.py` lines 88-92): drop the `extra` rows whose `movie_id` is in
`train_data` (`isin` + negated mask), then `pd.concat([extra_data, train_data])`. -/
def mergeWithExtra (train_data extra : List Item) : List Item :=
  maskRows extra
    ((pdIsin (extra.map Item.movie_id) (train_data.map Item.movie_id)).map (fun b => !b))
    ++ train_data

theorem maskRows_map {α : Type} (g : α → Bool) (l : List α) :
    maskRows l (l.map g) = l.filter g := by
  induction l with
  | nil => rfl
  | cons a l ih =>
    simp only [maskRows, List.map_cons, List.zip_cons_cons, List.filter_cons] at *
    cases hg : g a
    · simpa [hg] using ih
    · simpa [hg] using ih

theorem maskRows_isin_not {α : Type} (f : α → Int) (vals : List Int) (l : List α) :
    maskRows l ((pdIsin (l.map f) vals).map (fun b => !b))
      = l.filter (fun x => !(vals.contains (f x))) := by
  have h : (pdIsin (l.map f) vals).map (fun b => !b)
      = l.map (fun x => !(vals.contains (f x))) := by
    simp [pdIsin, List.map_map, Function.comp]
  rw [h, maskRows_map]

theorem mergeWithExtra_eq (train_data extra : List Item) :
    mergeWithExtra train_data extra
      = extra.filter (fun s => !((train_data.map Item.movie_id).contains s.movie_id))
          ++ train_data := by
  unfold mergeWithExtra
  rw [maskRows_isin_not Item.movie_id]

/-- C1: the merged corpus discards every supplemental item whose id also
appears in the catalog (on every colliding id the merged corpus carries
exactly the catalog's items for that id), and the result is the surviving
supplemental items first, in their original relative order, followed by the
catalog items in their original relative order. -/
theorem merge_catalog_wins_and_order (catalog supp : List Item) :
    mergeWithExtra catalog supp
      = supp.filter (fun s => !((catalog.map Item.movie_id).contains s.movie_id)) ++ catalog
    ∧ ∀ i : Int, i ∈ catalog.map Item.movie_id →
        (mergeWithExtra catalog supp).filter (fun s => s.movie_id == i)
          = catalog.filter (fun s => s.movie_id == i) := by
  refine ⟨mergeWithExtra_eq catalog supp, ?_⟩
  intro i hi
  rw [mergeWithExtra_eq, List.filter_append]
  have hnil : (supp.filter
      (fun s => !((catalog.map Item.movie_id).contains s.movie_id))).filter
        (fun s => s.movie_id == i) = [] := by
    rw [List.filter_eq_nil_iff]
    intro a ha hai
    have h2 : a.movie_id = i := by simpa using hai
    have h1 := List.of_mem_filter ha
    rw [h2] at h1
    simp at h1
    rcases List.mem_map.mp hi with ⟨b, hb, hbi⟩
    exact h1 b hb hbi
  rw [hnil, List.nil_append]

/-- Witness for C1 on Scenario A: catalog `[{1, "Alpha movie"}]`,
supplemental `[{1, "WRONG"}, {2, "Beta movie"}]`; the catalog's text wins
on colliding id 1. -/
theorem merge_catalog_wins_witness :
    (mergeWithExtra [⟨1, "Alpha movie"⟩] [⟨1, "WRONG"⟩, ⟨2, "Beta movie"⟩]).filter
        (fun s => s.movie_id == 1)
      = ([⟨1, "Alpha movie"⟩] : List Item).filter (fun s => s.movie_id == 1) :=
  (merge_catalog_wins_and_order [⟨1, "Alpha movie"⟩] [⟨1, "WRONG"⟩, ⟨2, "Beta movie"⟩]).2
    1 (by decide)

/-- C2 counterexample: the merge never deduplicates its inputs, so a
supplemental source that itself repeats an id yields a merged corpus in
which that id appears twice. -/
theorem merge_unique_counterexample :
    ¬ (((mergeWithExtra [⟨1, "Alpha movie"⟩] [⟨2, "A"⟩, ⟨2, "B"⟩]).map
        Item.movie_id).Nodup) := by
  decide

/-- C2 amended: when the catalog and the supplemental input each contain no
internal duplicate ids, every id in the merged corpus appears exactly once
(the isin-filter removes all cross-collisions). -/
theorem merge_unique_of_nodup_inputs (catalog supp : List Item)
    (hc : (catalog.map Item.movie_id).Nodup)
    (hs : (supp.map Item.movie_id).Nodup) :
    ((mergeWithExtra catalog supp).map Item.movie_id).Nodup := by
  rw [mergeWithExtra_eq, List.map_append, List.nodup_append]
  refine ⟨?_, hc, ?_⟩
  · exact hs.sublist (List.Sublist.map Item.movie_id (List.filter_sublist supp))
  · intro x hx
    rcases List.mem_map.mp hx with ⟨a, ha, rfl⟩
    have h1 : ¬ ((catalog.map Item.movie_id).contains a.movie_id = true) := by
      have := List.of_mem_filter ha
      simpa using this
    intro hmem
    exact h1 (by simpa using hmem)

/-- Witness for C2 amended at duplicate-free concrete inputs. -/
theorem merge_unique_witness :
    ((mergeWithExtra [⟨1, "Alpha movie"⟩] [⟨2, "Beta movie"⟩, ⟨3, "Gamma movie"⟩]).map
        Item.movie_id).Nodup :=
  merge_unique_of_nodup_inputs [⟨1, "Alpha movie"⟩] [⟨2, "Beta movie"⟩, ⟨3, "Gamma movie"⟩]
    (by decide) (by decide)

/-! ## Loading and cleaning (`Trainer.load_data`, trainer.py lines 49-95) -/

/-- The controlled genre vocabulary `GENRES` (trainer.py lines 11-31). -/
def GENRES : List String :=
  ["Animation", "Comedy", "Family", "Adventure", "Fantasy", "Romance", "Drama",
   "Action", "Crime", "Thriller", "Horror", "History", "Science Fiction",
   "Mystery", "War", "Foreign", "Music", "Documentary", "Western"]

/-- Outcome of `ast.literal_eval` (an external stdlib parser) followed by
`[y["name"] for y in ...]` on the serialized `genres` cell: `ok names` when
the cell parses as a list of objects that all carry a `name` field,
`malformed` when that evaluation raises. -/
inductive GenresField where
  | ok (names : List String)
  | malformed
deriving Repr, DecidableEq

/-- Models `literal_eval` plus name extraction on one `genres` cell
(trainer.py line 66); raises `ValueError` on a malformed cell. -/
def literalEvalNames : GenresField → Except PyErr (List String)
  | .ok ns => .ok ns
  | .malformed => .error .valueError

/-- The `cleaner` helper (trainer.py lines 58-63): keep only tags found in
the controlled vocabulary, preserving order. -/
def cleaner (x : List String) (genres : List String := GENRES) : List String :=
  x.filter (fun y => genres.contains y)

/-- A raw row of the catalog file after column selection and renaming
(trainer.py lines 52-54): `id` as read (string cell), `title` and
`overview` possibly NaN (`none`), and the serialized `genres` cell. -/
structure RawCatalogRow where
  id : String
  title : Option String
  overview : Option String
  genres : GenresField
deriving Repr, DecidableEq

/-- Models `" ".join(genres)` (trainer.py line 74). -/
def joinSpace : List String → String
  | [] => ""
  | [g] => g
  | g :: gs => g ++ " " ++ joinSpace gs

/-- The catalog half of `Trainer.load_data` (trainer.py lines 52-80):
coerce `movie_id` with `pd.to_numeric(errors="coerce")`; apply
`literal_eval` to every `genres` cell (the first malformed cell raises and
aborts the whole call); filter tags through `cleaner`; build
`text = title + " " + overview + " " + " ".join(genres)` with NaN
propagation; `dropna` the `(movie_id, text)` frame; `astype(int)` on the
already NaN-free ids. -/
def assembleCatalog (rows : List RawCatalogRow) : Except PyErr (List Item) := do
  let names ← rows.mapM (fun r => literalEvalNames r.genres)
  let cleaned := names.map (fun ns => cleaner ns)
  let texts : List (Option String) := (rows.zip cleaned).map (fun p =>
    match p.1.title, p.1.overview with
    | some t, some o => some (t ++ " " ++ o ++ " " ++ joinSpace p.2)
    | _, _ => none)
  pure (((rows.map (fun r => pdToNumeric r.id)).zip texts).filterMap (fun p =>
    match p.1, p.2 with
    | some i, some tx => some ⟨i, tx⟩
    | _, _ => none))

/-- A raw supplemental row (`extra_data`): `movie_id` as read and a
possibly-NaN `text`. -/
structure RawExtraRow where
  movie_id : String
  text : Option String
deriving Repr, DecidableEq

/-- The supplemental half of `Trainer.load_data` (trainer.py lines 83-87):
coerce `movie_id` with `pd.to_numeric(errors="coerce")`, then immediately
`astype(int)` — which raises pandas' `IntCastingNaNError` as soon as any
coerced id is NaN, BEFORE the subsequent `dropna` runs — then `dropna`,
which at that point can only drop rows whose `text` is NaN. -/
def cleanExtra (rows : List RawExtraRow) : Except PyErr (List Item) :=
  let coerced := rows.map (fun r => (pdToNumeric r.movie_id, r.text))
  if coerced.all (fun p => p.1.isSome) then
    .ok (coerced.filterMap (fun p =>
      match p.1, p.2 with
      | some i, some tx => some ⟨i, tx⟩
      | _, _ => none))
  else
    .error .intCastingNaN

/-- Models `Trainer.load_data` (trainer.py lines 49-95): assemble the catalog,
then when `extra_data` is present clean it and merge it in (the final
`dropna` on line 94 is a no-op on the already NaN-free frame). -/
def loadData (rows : List RawCatalogRow) (extra : Option (List RawExtraRow)) :
    Except PyErr (List Item) := do
  let train_data ← assembleCatalog rows
  match extra with
  | none => pure train_data
  | some ex => do
      let exItems ← cleanExtra ex
      pure (mergeWithExtra train_data exItems)

/-- C5 (code bug): a supplemental row with a non-numeric id is NOT silently
excluded — `astype(int)` runs before `dropna` and raises
`IntCastingNaNError`, failing the whole `load_data` call; likewise a
catalog row with an unparseable `genres` cell raises `ValueError` from
`literal_eval` instead of being excluded. Only a malformed CATALOG id is
silently dropped, as the claim describes. -/
theorem input_error_raises_not_excluded :
    cleanExtra [⟨"abc", some "some text"⟩] = .error .intCastingNaN
    ∧ loadData [⟨"1", some "Alpha", some "Overview", .ok ["Drama"]⟩]
        (some [⟨"abc", some "some text"⟩]) = .error .intCastingNaN
    ∧ assembleCatalog [⟨"1", some "Alpha", some "Overview", .malformed⟩]
        = .error .valueError
    ∧ assembleCatalog [⟨"not-a-number", some "Alpha", some "Overview", .ok ["Drama"]⟩]
        = .ok [] := by
  refine ⟨by decide, by decide, by decide, by decide⟩

/-! ## Vectors and the faiss flat L2 index (`similarity.py`) -/

/-- An embedding vector; the float scalars are modelled as `Int`, which
preserves everything the claims quantify over (ordering of squared
distances, identity of vectors). -/
abbrev Vec := List Int

/-- A 2-D numpy array of embeddings, one row per text. -/
abbrev EmbArr := List Vec

/-- Squared Euclidean distance between two vectors. -/
def sqDist (u v : Vec) : Int :=
  ((u.zip v).map (fun p => (p.1 - p.2) ^ 2)).sum

/-- The search result order on `(position, distance)` pairs: strictly
smaller distance first, ties by lower insertion position. -/
def knnLE (a b : Nat × Int) : Prop :=
  a.2 < b.2 ∨ (a.2 = b.2 ∧ a.1 ≤ b.1)

instance : DecidableRel knnLE := fun a b => by
  unfold knnLE; exact inferInstance

instance : IsTotal (Nat × Int) knnLE :=
  ⟨fun a b => by
    unfold knnLE
    rcases lt_trichotomy a.2 b.2 with h | h | h
    · exact Or.inl (Or.inl h)
    · rcases Nat.le_total a.1 b.1 with h1 | h1
      · exact Or.inl (Or.inr ⟨h, h1⟩)
      · exact Or.inr (Or.inr ⟨h.symm, h1⟩)
    · exact Or.inr (Or.inl h)⟩

instance : IsTrans (Nat × Int) knnLE :=
  ⟨fun a b c hab hbc => by
    unfold knnLE at *
    rcases hab with h1 | ⟨h1, h1'⟩
    · rcases hbc with h2 | ⟨h2, _⟩
      · exact Or.inl (h1.trans h2)
      · exact Or.inl (h2 ▸ h1)
    · rcases hbc with h2 | ⟨h2, h2'⟩
      · exact Or.inl (h1 ▸ h2)
      · exact Or.inr ⟨h1.trans h2, h1'.trans h2'⟩⟩

/-- Modelled from the spec: faiss `IndexFlatL2.search` for a single query —
the library is external to this repository (the repository only calls it in
`similarity.py` lines 60 and 75-78), so its exact k-nearest-neighbor
semantics is taken from spec section 4.4: all stored vectors ranked by
squared Euclidean distance ascending, ties broken by lower insertion
position, and the first `k` taken (`k` clamped to the number of stored
vectors). Returns `(position, distance)` pairs. -/
def knnSearch (stored : EmbArr) (q : Vec) (k : Nat) : List (Nat × Int) :=
  (List.insertionSort knnLE ((stored.enum).map (fun p => (p.1, sqDist q p.2)))).take k

/-- The index built by `build_faiss_index` (similarity.py lines 75-78): a
flat exact-search structure holding the added vectors in insertion order. -/
structure FaissIndex where
  vecs : EmbArr
deriving Repr, DecidableEq

/-- Models `index.ntotal`. -/
def FaissIndex.ntotal (ix : FaissIndex) : Nat := ix.vecs.length

/-- Models `index.search(queries, k)`: returns the pair
`(distances, neighbours)`, one row per query. -/
def FaissIndex.search (ix : FaissIndex) (queries : EmbArr) (k : Nat) :
    List (List Int) × List (List Nat) :=
  (queries.map (fun q => (knnSearch ix.vecs q k).map Prod.snd),
   queries.map (fun q => (knnSearch ix.vecs q k).map Prod.fst))

/-- Models `SimilarityMeasure.build_faiss_index` (similarity.py lines 75-78):
`faiss.IndexFlatL2(d)` followed by `index.add(embeddings)`. -/
def build_faiss_index (embeddings : EmbArr) : FaissIndex :=
  ⟨embeddings⟩

/-! ## Python dict subscripting -/

/-- A hashable Python dict key: the dicts in this code hold int keys after
`fit` and string keys after `load` (`json.load` produces string keys). -/
inductive PyKey where
  | pint (n : Nat)
  | pstr (s : String)
deriving Repr, DecidableEq

/-- A Python value used as a dict subscript on the modelled paths: an int,
a string, or a numpy array (arrays are unhashable in Python). -/
inductive PyVal where
  | vint (n : Nat)
  | vstr (s : String)
  | varrNat (a : List (List Nat))
  | varrInt (a : List (List Int))
deriving Repr, DecidableEq

/-- Hashing a subscript value: numpy arrays are unhashable, so using one as
a dict key raises `TypeError`. -/
def PyVal.toKey : PyVal → Except PyErr PyKey
  | .vint n => .ok (.pint n)
  | .vstr s => .ok (.pstr s)
  | .varrNat _ => .error .typeError
  | .varrInt _ => .error .typeError

/-- First-match association lookup in a dict's entry list. -/
def dictFind : List (PyKey × Int) → PyKey → Option Int
  | [], _ => none
  | e :: es, k => if e.1 = k then some e.2 else dictFind es k

/-- Models `d[k]` where `d` may still be `None`: subscripting `None` raises
`TypeError`; an unhashable key raises `TypeError`; a missing key raises
`KeyError`. -/
def pyDictGet (d : Option (List (PyKey × Int))) (k : PyVal) : Except PyErr Int :=
  match d with
  | none => .error .typeError
  | some entries => do
      let key ← k.toKey
      match dictFind entries key with
      | some v => .ok v
      | none => .error .keyError

/-! ## The `SimilarityMeasure` session state -/

/-- The mutable fields of `SimilarityMeasure` that the claims are about
(similarity.py lines 26-37): all `None` until `fit` or `load` assigns them.
The external SentenceTransformer encoder is passed as an explicit function
or as an explicit call outcome wherever embedding happens. -/
structure SimilarityMeasure where
  embeddings : Option EmbArr
  faiss_index : Option FaissIndex
  texts : Option (List String)
  index_to_id : Option (List (PyKey × Int))
deriving Repr, DecidableEq

/-- A fresh `SimilarityMeasure()` (similarity.py `__init__`). -/
def SimilarityMeasure.mkFresh : SimilarityMeasure :=
  ⟨none, none, none, none⟩

/-- Models `SimilarityMeasure.fit` (similarity.py lines 39-56) with the outcome of
the external embedding call made explicit. The statements run in program
order: `self.texts = texts` is assigned FIRST; then, if the embedding call
succeeds, `self.embeddings`, `self.faiss_index` and `self.index_to_id` are
assigned in turn, with `index_to_id = dict(zip(range(ntotal), ids))`. If
the embedding call raises, the exception propagates with `texts` already
replaced and every other field untouched. Returns the state as left by the
call, plus the propagated exception if any. -/
def SimilarityMeasure.fitRun (m : SimilarityMeasure) (texts : List String)
    (ids : List Int) (embedRes : Except PyErr EmbArr) :
    SimilarityMeasure × Option PyErr :=
  let m1 := { m with texts := some texts }
  match embedRes with
  | .error e => (m1, some e)
  | .ok emb =>
    let ix := build_faiss_index emb
    ({ m1 with
        embeddings := some emb
        faiss_index := some ix
        index_to_id := some (((List.range ix.ntotal).zip ids).map
          (fun p => (PyKey.pint p.1, p.2))) }, none)

/-- Models `SimilarityMeasure.infer` (similarity.py lines 58-62): embed the texts
with the external encoder `f`, then `self.faiss_index.search(embeddings,
top_k)`; when `faiss_index` is still `None` the attribute access raises
`AttributeError`. Returns the pair `(neighbours, embeddings)` — the
distances are discarded into `_`. -/
def SimilarityMeasure.infer (m : SimilarityMeasure) (f : String → Vec)
    (texts : List String) (top_k : Nat) :
    Except PyErr (List (List Nat) × EmbArr) :=
  let embeddings := texts.map f
  match m.faiss_index with
  | none => .error .attributeError
  | some ix => .ok ((ix.search embeddings top_k).2, embeddings)

/-! ## Persistence (`save` / `load`, similarity.py lines 80-102) -/

/-- The three co-located files written by `SimilarityMeasure.save`:
`embeddings.npy`, `index_to_id.json` (whose object keys are ALWAYS
strings — `json.dump` stringifies int dict keys), and `faiss.index`. -/
structure ArtifactDir where
  embeddingsFile : EmbArr
  indexToIdFile : List (String × Int)
  faissFile : FaissIndex
deriving Repr, DecidableEq

/-- The string form a key takes in the dumped JSON object. -/
def PyKey.jsonKey : PyKey → String
  | .pint n => toString n
  | .pstr s => s

/-- Models `json.dump` applied to the in-memory dict: every key becomes its
string form. -/
def jsonDumpKeys (d : List (PyKey × Int)) : List (String × Int) :=
  d.map (fun p => (p.1.jsonKey, p.2))

/-- Models `SimilarityMeasure.save` (similarity.py lines 80-90): writes the three
files of a fitted session. (On an unfitted session the claims never
exercise this path; handing `None` to `faiss.write_index` surfaces as
`TypeError` here.) -/
def SimilarityMeasure.save (m : SimilarityMeasure) : Except PyErr ArtifactDir :=
  match m.embeddings, m.index_to_id, m.faiss_index with
  | some emb, some d, some ix => .ok ⟨emb, jsonDumpKeys d, ix⟩
  | _, _, _ => .error .typeError

/-- Models `SimilarityMeasure.load` (similarity.py lines 92-102): a missing folder
(`none`) raises `ValueError`; otherwise the three files are read and the
fields assigned with NO cross-file consistency check of any kind —
`json.load` yields a dict with STRING keys, stored as-is. `texts` is left
untouched. -/
def SimilarityMeasure.load (m : SimilarityMeasure) (dir : Option ArtifactDir) :
    Except PyErr SimilarityMeasure :=
  match dir with
  | none => .error .valueError
  | some a => .ok { m with
      embeddings := some a.embeddingsFile
      index_to_id := some (a.indexToIdFile.map (fun p => (PyKey.pstr p.1, p.2)))
      faiss_index := some a.faissFile }

/-! ## The `Trainer` (trainer.py) -/

/-- The `Trainer` fields (trainer.py lines 37-47): the similarity model,
the optional supplemental frame, and the training corpus computed by
`load_data` inside the constructor. -/
structure Trainer where
  sim_model : SimilarityMeasure
  extra_data : Option (List RawExtraRow)
  train_data : List Item
deriving Repr, DecidableEq

/-- Models `Trainer.__init__` (trainer.py lines 37-47): run `load_data` on the
movie file's rows and the supplemental frame exactly once and store the
result; the similarity model starts fresh. Exceptions from `load_data`
propagate out of the constructor. -/
def Trainer.mkT (fileRows : List RawCatalogRow)
    (extra : Option (List RawExtraRow)) : Except PyErr Trainer :=
  (loadData fileRows extra).map (fun td =>
    { sim_model := SimilarityMeasure.mkFresh, extra_data := extra, train_data := td })

/-- Models `Trainer.fit` (trainer.py lines 97-102): fit the similarity model on
the stored corpus's texts and ids; no other field is touched and
`load_data` is not called again. -/
def Trainer.fitT (t : Trainer) (embedRes : Except PyErr EmbArr) :
    Trainer × Option PyErr :=
  let r := t.sim_model.fitRun (t.train_data.map Item.text)
    (t.train_data.map Item.movie_id) embedRes
  ({ t with sim_model := r.1 }, r.2)

/-- Models `Trainer.predict` (trainer.py lines 104-108), exactly as written:
`ids = self.sim_model.infer([movie_text], top_k=top_k)` binds the returned
PAIR `(neighbours, embeddings)`; the comprehension
`[self.sim_model.index_to_id[i] for i in ids]` then iterates over that
pair, so each `i` is a whole numpy array used as a dict subscript. -/
def Trainer.predict (t : Trainer) (f : String → Vec) (movie_text : String)
    (top_k : Nat) : Except PyErr (List Int) := do
  let ids ← t.sim_model.infer f [movie_text] top_k
  [PyVal.varrNat ids.1, PyVal.varrInt ids.2].mapM
    (fun i => pyDictGet t.sim_model.index_to_id i)

/-! ## Claims about the session lifecycle -/

/-- A concrete stand-in for the external sentence encoder, used only to
evaluate the model on concrete inputs. -/
def embedF (s : String) : Vec :=
  [(s.length : Int)]

/-- A concrete three-item corpus (Scenario B's shape). -/
def corpus3 : List Item :=
  [⟨1, "Alpha movie"⟩, ⟨2, "Beta movie"⟩, ⟨3, "Gamma movie"⟩]

/-- C9 counterexample: a session already fitted is re-fitted and the
embedding call fails; the claim says the prior state is then preserved
unchanged, but `fit` has already overwritten `texts`, leaving a state that
is neither the prior one nor a fully replaced one. -/
theorem fit_partial_state_counterexample :
    ((SimilarityMeasure.fitRun
        ⟨some [[1]], some ⟨[[1]]⟩, some ["old"], some [(PyKey.pint 0, 7)]⟩
        ["new"] [9] (.error .valueError)).2 = some .valueError)
    ∧ ((SimilarityMeasure.fitRun
        ⟨some [[1]], some ⟨[[1]]⟩, some ["old"], some [(PyKey.pint 0, 7)]⟩
        ["new"] [9] (.error .valueError)).1.texts = some ["new"])
    ∧ ((SimilarityMeasure.fitRun
        ⟨some [[1]], some ⟨[[1]]⟩, some ["old"], some [(PyKey.pint 0, 7)]⟩
        ["new"] [9] (.error .valueError)).1.embeddings = some [[1]]) :=
  ⟨rfl, rfl, rfl⟩

/-- C9 amended: when the embedding call succeeds, `fit` fully replaces the
fitted state (the result does not depend on the prior state at all); when
the embedding call fails, the prior embeddings, index and id map are
preserved — but `texts` has already been replaced by the new input, so the
prior state as a whole is not preserved. -/
theorem fit_full_replace_or_stale_texts (m : SimilarityMeasure)
    (texts : List String) (ids : List Int) :
    (∀ emb, SimilarityMeasure.fitRun m texts ids (.ok emb)
      = (⟨some emb, some (build_faiss_index emb), some texts,
          some (((List.range emb.length).zip ids).map
            (fun p => (PyKey.pint p.1, p.2)))⟩, none))
    ∧ (∀ e, SimilarityMeasure.fitRun m texts ids (.error e)
      = ({ m with texts := some texts }, some e)) :=
  ⟨fun _ => rfl, fun _ => rfl⟩

/-- C4 counterexample: Scenario C's directory — `embeddings` has 5 rows but
`index_to_id` has 4 entries — is accepted by `load` without any error; the
inconsistent state is adopted wholesale (the claim says this fails with a
corrupt-artifact error and the session stays unfitted). -/
theorem load_no_consistency_check_counterexample :
    SimilarityMeasure.load SimilarityMeasure.mkFresh
      (some ⟨[[0], [1], [2], [3], [4]],
             [("0", 10), ("1", 11), ("2", 12), ("3", 13)],
             ⟨[[0], [1], [2], [3], [4]]⟩⟩)
      = .ok ⟨some [[0], [1], [2], [3], [4]],
             some ⟨[[0], [1], [2], [3], [4]]⟩,
             none,
             some [(PyKey.pstr "0", 10), (PyKey.pstr "1", 11),
                   (PyKey.pstr "2", 12), (PyKey.pstr "3", 13)]⟩ :=
  rfl

/-- C4 amended: `load` on a missing directory fails (the code raises a
plain `ValueError`, not a dedicated `ArtifactNotFoundError`) before any
field is assigned, so the session keeps its prior state; but `load`
performs NO structural consistency check at all — any present directory is
accepted and its three files' contents are adopted wholesale, whether or
not their counts agree. -/
theorem load_missing_fails_no_check_otherwise (m : SimilarityMeasure) :
    (SimilarityMeasure.load m none = .error .valueError)
    ∧ (∀ a, SimilarityMeasure.load m (some a)
        = .ok { m with
            embeddings := some a.embeddingsFile
            index_to_id := some (a.indexToIdFile.map (fun p => (PyKey.pstr p.1, p.2)))
            faiss_index := some a.faissFile }) :=
  ⟨rfl, fun _ => rfl⟩

/-- C3 counterexample: a fitted session whose id map is `{0: 7}` is saved
and loaded into a fresh session; the loaded map is `{"0": 7}` — `json.dump`
stringifies the int keys and `load` keeps the string keys — so the
round-trip does NOT reproduce an identical Index-to-Id Map. -/
theorem save_load_map_not_identical :
    ((SimilarityMeasure.save ⟨some [[1]], some ⟨[[1]]⟩, some ["t"], some [(PyKey.pint 0, 7)]⟩).bind
        (fun a => SimilarityMeasure.load SimilarityMeasure.mkFresh (some a))
      = .ok ⟨some [[1]], some ⟨[[1]]⟩, none, some [(PyKey.pstr "0", 7)]⟩)
    ∧ (some [(PyKey.pstr "0", 7)] ≠ some [(PyKey.pint 0, 7)]) :=
  ⟨rfl, by decide⟩

/-- C3 amended: `save` followed by `load` into a fresh session reproduces
identical embeddings, an identical vector index — hence identical raw
`search` results on any fixed query set — and an Index-to-Id Map carrying
the same values in the same order but with every integer key replaced by
its string form; the map is therefore not identical, and id resolution
through it behaves differently after the round trip. -/
theorem save_load_roundtrip (emb : EmbArr) (ix : FaissIndex)
    (ts : List String) (d : List (PyKey × Int)) :
    (SimilarityMeasure.save ⟨some emb, some ix, some ts, some d⟩
      = .ok ⟨emb, jsonDumpKeys d, ix⟩)
    ∧ (SimilarityMeasure.load SimilarityMeasure.mkFresh (some ⟨emb, jsonDumpKeys d, ix⟩)
      = .ok ⟨some emb, some ix, none,
          some (d.map (fun p => (PyKey.pstr p.1.jsonKey, p.2)))⟩)
    ∧ (∀ f texts k,
        SimilarityMeasure.infer
          ⟨some emb, some ix, none,
            some (d.map (fun p => (PyKey.pstr p.1.jsonKey, p.2)))⟩ f texts k
        = SimilarityMeasure.infer ⟨some emb, some ix, some ts, some d⟩ f texts k) := by
  refine ⟨rfl, ?_, fun f texts k => rfl⟩
  simp [SimilarityMeasure.load, SimilarityMeasure.mkFresh, jsonDumpKeys,
    List.map_map, Function.comp]

/-- C8 counterexample: `predict` before `fit` and `search` before `build`
do NOT fail with two distinct error kinds — both paths reach
`self.faiss_index.search` while `faiss_index` is `None` and raise the very
same `AttributeError`; no `NotFittedError` or `IndexNotBuiltError` exists
anywhere in the code. -/
theorem usage_error_kinds_counterexample :
    (SimilarityMeasure.infer SimilarityMeasure.mkFresh embedF ["x"] 1
      = .error .attributeError)
    ∧ (Trainer.predict ⟨SimilarityMeasure.mkFresh, none, []⟩ embedF "x" 5
      = .error .attributeError) :=
  ⟨rfl, rfl⟩

/-- C8 amended: each usage error does fail immediately, but with ordinary
Python exceptions rather than distinct dedicated kinds: `predict` before
`fit` and `search` (`infer`) before `build` both raise the same
`AttributeError` from touching the `None` index, and resolving a position
absent from the id map raises `KeyError`. -/
theorem usage_errors_fail_immediately (m : SimilarityMeasure)
    (f : String → Vec) (texts : List String) (k : Nat) (t : Trainer)
    (s : String) (k' : Nat) (d : List (PyKey × Int)) (n : Nat)
    (hm : m.faiss_index = none) (ht : t.sim_model.faiss_index = none)
    (hd : dictFind d (PyKey.pint n) = none) :
    (SimilarityMeasure.infer m f texts k = .error .attributeError)
    ∧ (Trainer.predict t f s k' = .error .attributeError)
    ∧ (pyDictGet (some d) (PyVal.vint n) = .error .keyError) := by
  refine ⟨?_, ?_, ?_⟩
  · unfold SimilarityMeasure.infer
    rw [hm]
  · unfold Trainer.predict SimilarityMeasure.infer
    rw [ht]
    rfl
  · unfold pyDictGet
    simp only [PyVal.toKey, Except.bind, pure, Except.pure, bind, hd]

/-- Witness for C8 amended on concrete unfitted sessions and an empty id
map. -/
theorem usage_errors_witness :
    (SimilarityMeasure.infer SimilarityMeasure.mkFresh embedF ["y"] 1
      = .error .attributeError)
    ∧ (Trainer.predict ⟨SimilarityMeasure.mkFresh, none, corpus3⟩ embedF "y" 3
      = .error .attributeError)
    ∧ (pyDictGet (some []) (PyVal.vint 0) = .error .keyError) :=
  usage_errors_fail_immediately SimilarityMeasure.mkFresh embedF ["y"] 1
    ⟨SimilarityMeasure.mkFresh, none, corpus3⟩ "y" 3 [] 0 rfl rfl rfl

/-- C6 (code bug): on a session fitted on three items, `predict` with
`k = 5` does not return ids at all — `infer` hands back the pair
`(neighbours, embeddings)`, `predict` iterates over that pair and uses
each numpy array as a dict key, raising `TypeError`. The underlying
`infer` succeeds and would have supplied the right positions (here
`[0, 2, 1]`, clamped to the 3 stored vectors, best match first). -/
theorem predict_raises_typeError :
    ((Trainer.fitT ⟨SimilarityMeasure.mkFresh, none, corpus3⟩
        (.ok ((corpus3.map Item.text).map embedF))).1.predict embedF "Alpha movie" 5
      = .error .typeError)
    ∧ ((Trainer.fitT ⟨SimilarityMeasure.mkFresh, none, corpus3⟩
        (.ok ((corpus3.map Item.text).map embedF))).1.sim_model.infer
          embedF ["Alpha movie"] 5
      = .ok ([[0, 2, 1]], [[11]])) := by
  refine ⟨by decide, by decide⟩

/-- C10: the training corpus is computed by `load_data` exactly once, in
the constructor; `fit` re-uses that stored corpus (its texts become the
fitted `texts`) and replaces nothing but the similarity model; the stored
corpus and the supplemental frame survive every `fit` unchanged. -/
theorem corpus_computed_once_and_framed (rows : List RawCatalogRow)
    (extra : Option (List RawExtraRow)) :
    ((Trainer.mkT rows extra).map Trainer.train_data = loadData rows extra)
    ∧ (∀ t e, (Trainer.fitT t e).1.train_data = t.train_data)
    ∧ (∀ t e, (Trainer.fitT t e).1.extra_data = t.extra_data)
    ∧ (∀ t e, (Trainer.fitT t e).1
        = { t with sim_model := (Trainer.fitT t e).1.sim_model })
    ∧ (∀ t emb, (Trainer.fitT t (.ok emb)).1.sim_model.texts
        = some (t.train_data.map Item.text)) := by
  refine ⟨?_, fun t e => rfl, fun t e => rfl, fun t e => rfl, fun t emb => rfl⟩
  unfold Trainer.mkT
  cases loadData rows extra <;> rfl

/-- C7: for a built index with `n` stored vectors, search returns exactly
`min(k, n)` results (`k` clamped to `n`), sorted so distances are
non-decreasing with ties broken by lower insertion position (the order
`knnLE`), over pairwise-distinct positions, each result's distance being
the squared Euclidean distance from the query to the stored vector at that
position; batched `search` is this per query. The faiss call itself is
external to the repository and is modelled from spec section 4.4. -/
theorem search_ordering_law (stored : EmbArr) (q : Vec) (k : Nat) :
    (knnSearch stored q k).length = min k stored.length
    ∧ List.Sorted knnLE (knnSearch stored q k)
    ∧ ((knnSearch stored q k).map Prod.fst).Nodup
    ∧ (∀ p ∈ knnSearch stored q k, ∃ v, stored[p.1]? = some v ∧ p.2 = sqDist q v)
    ∧ (∀ ix : FaissIndex, ∀ queries : EmbArr, ∀ k' : Nat,
        FaissIndex.search ix queries k'
          = (queries.map (fun q' => (knnSearch ix.vecs q' k').map Prod.snd),
             queries.map (fun q' => (knnSearch ix.vecs q' k').map Prod.fst))) := by
  have hperm := List.perm_insertionSort knnLE
    ((stored.enum).map (fun p => (p.1, sqDist q p.2)))
  refine ⟨?_, ?_, ?_, ?_, fun ix queries k' => rfl⟩
  · unfold knnSearch
    rw [List.length_take, hperm.length_eq, List.length_map, List.enum_length]
  · exact List.Pairwise.sublist (List.take_sublist k _)
      (List.sorted_insertionSort knnLE _)
  · have h1 : (((stored.enum).map (fun p => (p.1, sqDist q p.2))).map Prod.fst).Nodup := by
      rw [List.map_map]
      exact List.nodup_enum_map_fst stored
    have h2 : ((List.insertionSort knnLE
        ((stored.enum).map (fun p => (p.1, sqDist q p.2)))).map Prod.fst).Nodup :=
      ((hperm.map Prod.fst).nodup_iff).mpr h1
    exact h2.sublist (List.Sublist.map Prod.fst (List.take_sublist k _))
  · intro p hp
    have hp1 : p ∈ List.insertionSort knnLE
        ((stored.enum).map (fun p => (p.1, sqDist q p.2))) :=
      List.mem_of_mem_take hp
    have hp2 : p ∈ (stored.enum).map (fun p => (p.1, sqDist q p.2)) :=
      hperm.mem_iff.mp hp1
    rcases List.mem_map.mp hp2 with ⟨⟨i, v⟩, hmem, rfl⟩
    exact ⟨v, List.mk_mem_enum_iff_getElem?.mp hmem, rfl⟩

/-- Witness for C7 on a concrete index of three stored vectors and
`k = 5`: the result is clamped to 3 and the pair `(2, 0)` — position 2 at
distance 0 — is resolved back to the stored vector `[1]`. -/
theorem search_ordering_witness :
    ((knnSearch [[0], [3], [1]] [1] 5).length = min 5 3)
    ∧ (∃ v, ([[0], [3], [1]] : EmbArr)[(2 : Nat)]? = some v
        ∧ (0 : Int) = sqDist [1] v) :=
  ⟨(search_ordering_law [[0], [3], [1]] [1] 5).1,
   (search_ordering_law [[0], [3], [1]] [1] 5).2.2.2.1 (2, 0) (by decide)⟩

end Watchlist
